import Mathlib

/-!
Shallow embedding of `src/hooks/useSwipe.ts` (the `useSwipe` React hook).

The hook tracks touch start/end coordinates, classifies the displacement of a
completed gesture against a distance threshold, and exposes the result as
reactive state.  The classification is applied through a debounced callback
(200ms, trailing edge, latest arguments — `useDebouncedCallback` from
`use-debounce`), and unless `keepUpdatedState` is set the result is reverted
to all-false flags by a `setTimeout` 100ms after being set.

The embedding models the hook instance as an explicit state record
(`DetectorState`) with the two pending timers represented as optional
fire-times, and the event handlers / timer callbacks as pure state
transformers.  A trace is a list of `Event`s folded over the state.
-/

/-- `MIN_SWIPE_DISTANCE` constant, useSwipe.ts line 11. -/
def MIN_SWIPE_DISTANCE : Int := 150

/-- `TouchCoordinates` interface: pixel coordinates of a touch. -/
structure TouchCoordinates where
  x : Int
  y : Int
deriving DecidableEq, Repr

/-- The fields of `UseSwipeOptions` that drive the gesture dynamics
(`minSwipeDistance`, `keepUpdatedState`).  The binding-related fields
(`ref`, `useDocument`) are modelled separately by `BindInputs`, since they
feed only the listener-binding effect. -/
structure UseSwipeOptions where
  minSwipeDistance : Option Int
  keepUpdatedState : Bool
deriving DecidableEq, Repr

/-- `const minSwipeDistance = options?.minSwipeDistance ?? MIN_SWIPE_DISTANCE`
(useSwipe.ts line 77). -/
def minSwipeDistance (opts : UseSwipeOptions) : Int :=
  opts.minSwipeDistance.getD MIN_SWIPE_DISTANCE

/-- `SwipeInfo` interface: the four directional flags. -/
structure SwipeInfo where
  isSwipeLeft : Bool
  isSwipeRight : Bool
  isSwipeUp : Bool
  isSwipeDown : Bool
deriving DecidableEq, Repr

/-- `initialSwipeInfo` (useSwipe.ts lines 81-86): all flags false. -/
def initialSwipeInfo : SwipeInfo :=
  { isSwipeLeft := false
    isSwipeRight := false
    isSwipeUp := false
    isSwipeDown := false }

/-- The record passed to `setSwipeInfo` in `updateSwipeInfo`
(useSwipe.ts lines 90-95): strict threshold comparisons, the two axes
evaluated independently. -/
def swipeInfoOf (minDist deltaX deltaY : Int) : SwipeInfo :=
  { isSwipeLeft := deltaX > minDist
    isSwipeRight := deltaX < -minDist
    isSwipeUp := deltaY > minDist
    isSwipeDown := deltaY < -minDist }

/-- State of one `useSwipe` hook instance.  `time` is the current time in
milliseconds; `debounceTimer` holds the fire-time and pending arguments of
the `useDebouncedCallback` timer (trailing edge, latest arguments);
`resetTimer` holds the fire-time of the `setTimeout` scheduled by
`updateSwipeInfo`; `tornDown` records that the cleanup of the
cancellation effect (useSwipe.ts line 102) has run. -/
structure DetectorState where
  time : Nat
  touchStart : Option TouchCoordinates
  touchEnd : Option TouchCoordinates
  swipeInfo : SwipeInfo
  debounceTimer : Option (Nat × Int × Int)
  resetTimer : Option Nat
  tornDown : Bool
deriving DecidableEq, Repr

/-- The state of a freshly mounted hook instance: `useState(null)` for both
touch points, `useState(initialSwipeInfo)` for the result, no pending
timers. -/
def initState : DetectorState :=
  { time := 0
    touchStart := none
    touchEnd := none
    swipeInfo := initialSwipeInfo
    debounceTimer := none
    resetTimer := none
    tornDown := false }

/-- `updateSwipeInfo` (useSwipe.ts lines 89-99): set the classified result
and, unless `keepUpdatedState` is set, schedule a `setTimeout` that resets
the result 100ms later.  When `keepUpdatedState` is set no timer is
scheduled and `resetTimer` is left as it was. -/
def updateSwipeInfo (opts : UseSwipeOptions) (s : DetectorState)
    (deltaX deltaY : Int) : DetectorState :=
  { s with
      swipeInfo := swipeInfoOf (minSwipeDistance opts) deltaX deltaY
      resetTimer :=
        if opts.keepUpdatedState then s.resetTimer else some (s.time + 100) }

/-- `onTouchStart` (useSwipe.ts lines 104-110): clear the end point, record
the start point. -/
def onTouchStart (s : DetectorState) (x y : Int) : DetectorState :=
  { s with touchEnd := none, touchStart := some ⟨x, y⟩ }

/-- `onTouchMove` (useSwipe.ts lines 112-117): overwrite the end point. -/
def onTouchMove (s : DetectorState) (x y : Int) : DetectorState :=
  { s with touchEnd := some ⟨x, y⟩ }

/-- `onTouchEnd` (useSwipe.ts lines 119-129), occurring at time `t`: if
either point is missing, return with no state change at all; otherwise
compute the deltas, invoke the debounced update — which (trailing edge)
re-arms the 200ms timer with the latest arguments — and clear both
points. -/
def onTouchEnd (s : DetectorState) (t : Nat) : DetectorState :=
  match s.touchStart, s.touchEnd with
  | some start, some stop =>
      { s with
          time := t
          debounceTimer := some (t + 200, start.x - stop.x, start.y - stop.y)
          touchStart := none
          touchEnd := none }
  | _, _ => s

/-- The debounce timer firing: run `updateSwipeInfo` with the stored
arguments at the stored fire-time; the timer is consumed.  A no-op when no
timer is pending. -/
def fireDebounce (opts : UseSwipeOptions) (s : DetectorState) : DetectorState :=
  match s.debounceTimer with
  | some (tf, deltaX, deltaY) =>
      updateSwipeInfo opts { s with time := tf, debounceTimer := none } deltaX deltaY
  | none => s

/-- The `setTimeout` callback from `updateSwipeInfo` firing:
`setSwipeInfo(initialSwipeInfo)`; the timer is consumed.  A no-op when no
timer is pending.  Note the source never clears this timeout, so the
callback runs even after teardown. -/
def fireReset (s : DetectorState) : DetectorState :=
  match s.resetTimer with
  | some tf => { s with time := tf, resetTimer := none, swipeInfo := initialSwipeInfo }
  | none => s

/-- The cleanup of `useEffect(() => () => debouncedStateUpdate.cancel(), ...)`
(useSwipe.ts line 102): cancel the pending debounced call.  The source has
no `clearTimeout` for the auto-reset timer, so `resetTimer` is left
untouched. -/
def teardownDetector (s : DetectorState) : DetectorState :=
  { s with tornDown := true, debounceTimer := none }

/-- External and timer events a hook instance reacts to.  `touchEnd` carries
its occurrence time (the only handler that schedules relative to now). -/
inductive Event where
  | touchStart (x y : Int)
  | touchMove (x y : Int)
  | touchEnd (t : Nat)
  | fireDebounce
  | fireReset
  | teardown
deriving DecidableEq, Repr

/-- Whether an event is a touch-end. -/
def Event.isTouchEnd : Event → Bool
  | .touchEnd _ => true
  | _ => false

/-- Whether an event is the debounce timer firing. -/
def Event.isFireDebounce : Event → Bool
  | .fireDebounce => true
  | _ => false

/-- One step of the hook instance on one event. -/
def step (opts : UseSwipeOptions) (s : DetectorState) : Event → DetectorState
  | .touchStart x y => onTouchStart s x y
  | .touchMove x y => onTouchMove s x y
  | .touchEnd t => onTouchEnd s t
  | .fireDebounce => fireDebounce opts s
  | .fireReset => fireReset s
  | .teardown => teardownDetector s

/-- Fold a list of events over a state. -/
def steps (opts : UseSwipeOptions) (s : DetectorState) (events : List Event) :
    DetectorState :=
  events.foldl (step opts) s

/-- Run a trace from the freshly mounted state. -/
def run (opts : UseSwipeOptions) (events : List Event) : DetectorState :=
  steps opts initState events

/-- Options with the default threshold (150) and auto-reset enabled. -/
def defaultOptions : UseSwipeOptions :=
  { minSwipeDistance := none, keepUpdatedState := false }

/-- Options with the default threshold and `keepUpdatedState` set. -/
def keepOptions : UseSwipeOptions :=
  { minSwipeDistance := none, keepUpdatedState := true }

/-- Binding target of the listener-binding effect: the whole document or a
DOM element (identified opaquely). -/
inductive BindTarget where
  | document
  | element (id : Nat)
deriving DecidableEq, Repr

/-- The three touch listeners the effect installs. -/
inductive TouchListener where
  | touchstart
  | touchmove
  | touchend
deriving DecidableEq, Repr

/-- Binding-relevant inputs of the listener-binding effect (useSwipe.ts
lines 131-166): `options?.useDocument`, `options?.ref?.current` (absent when
`options` or `options.ref` is absent, or when `current` is null), and the
owned `ref.current`. -/
structure BindInputs where
  useDocument : Bool
  optionsRefCurrent : Option Nat
  refCurrent : Option Nat
deriving DecidableEq, Repr

/-- The three listeners attached to one target. -/
def listenersOn (tgt : BindTarget) : List (BindTarget × TouchListener) :=
  [(tgt, .touchstart), (tgt, .touchmove), (tgt, .touchend)]

/-- The listener-binding effect body (useSwipe.ts lines 131-158) as the list
of listeners it attaches: with `useDocument`, the three listeners go on the
document; otherwise `options?.ref?.current ?? ref.current` is resolved and,
when an element is present, the three listeners go on it; when no element
is present nothing is attached and the effect is a no-op (the function is
total: no error value exists).  The cleanup removes exactly the returned
listeners. -/
def bindListeners (b : BindInputs) : List (BindTarget × TouchListener) :=
  if b.useDocument then
    listenersOn .document
  else
    match b.optionsRefCurrent.orElse (fun _ => b.refCurrent) with
    | some e => listenersOn (.element e)
    | none => []

/-- C1: For every completed gesture with displacement
`deltaX = start.x - end.x` and `deltaY = start.y - end.y`, the emitted
`SwipeInfo` satisfies exactly the four strict-inequality equations against
`minSwipeDistance`, the axes evaluated independently; in particular the
diagonal gesture with `deltaX = 200`, `deltaY = -200` and
`minSwipeDistance = 150` sets both `isSwipeLeft` and `isSwipeDown`. -/
theorem swipe_classification_equations (opts : UseSwipeOptions)
    (sx sy ex ey : Int) (t : Nat) :
    (((run opts [.touchStart sx sy, .touchMove ex ey, .touchEnd t,
        .fireDebounce]).swipeInfo.isSwipeLeft
          = decide (sx - ex > minSwipeDistance opts)
      ∧ (run opts [.touchStart sx sy, .touchMove ex ey, .touchEnd t,
        .fireDebounce]).swipeInfo.isSwipeRight
          = decide (sx - ex < -minSwipeDistance opts)
      ∧ (run opts [.touchStart sx sy, .touchMove ex ey, .touchEnd t,
        .fireDebounce]).swipeInfo.isSwipeUp
          = decide (sy - ey > minSwipeDistance opts)
      ∧ (run opts [.touchStart sx sy, .touchMove ex ey, .touchEnd t,
        .fireDebounce]).swipeInfo.isSwipeDown
          = decide (sy - ey < -minSwipeDistance opts))
    ∧ ((run { minSwipeDistance := some 150, keepUpdatedState := false }
          [.touchStart 200 0, .touchMove 0 200, .touchEnd 0,
           .fireDebounce]).swipeInfo.isSwipeLeft = true
       ∧ (run { minSwipeDistance := some 150, keepUpdatedState := false }
          [.touchStart 200 0, .touchMove 0 200, .touchEnd 0,
           .fireDebounce]).swipeInfo.isSwipeDown = true)) := by
  refine ⟨⟨rfl, rfl, rfl, rfl⟩, by decide⟩

/-- C4: A displacement exactly equal to `minSwipeDistance` in absolute
value does not set the corresponding flag: with `deltaX = minSwipeDistance`
the left flag is false, with `deltaX = -minSwipeDistance` the right flag is
false, and likewise on the vertical axis — the comparisons are strict.
Stated over every completed gesture whose deltas hit the threshold exactly
(the start point is `end + (±m, ∓m)`). -/
theorem threshold_boundary_not_a_swipe (opts : UseSwipeOptions)
    (ex ey : Int) (t : Nat) :
    ((run opts [.touchStart (ex + minSwipeDistance opts)
        (ey - minSwipeDistance opts), .touchMove ex ey, .touchEnd t,
        .fireDebounce]).swipeInfo.isSwipeLeft = false
     ∧ (run opts [.touchStart (ex + minSwipeDistance opts)
        (ey - minSwipeDistance opts), .touchMove ex ey, .touchEnd t,
        .fireDebounce]).swipeInfo.isSwipeDown = false)
    ∧ ((run opts [.touchStart (ex - minSwipeDistance opts)
        (ey + minSwipeDistance opts), .touchMove ex ey, .touchEnd t,
        .fireDebounce]).swipeInfo.isSwipeRight = false
     ∧ (run opts [.touchStart (ex - minSwipeDistance opts)
        (ey + minSwipeDistance opts), .touchMove ex ey, .touchEnd t,
        .fireDebounce]).swipeInfo.isSwipeUp = false) := by
  simp only [run, steps, List.foldl, step, onTouchStart, onTouchMove,
    onTouchEnd, fireDebounce, updateSwipeInfo, swipeInfoOf]
  refine ⟨⟨?_, ?_⟩, ⟨?_, ?_⟩⟩ <;>
    simp only [decide_eq_false_iff_not, not_lt] <;> omega

/-- C3 counterexample: after a touch-start at (5, 7) followed directly by a
touch-end (no intervening move), the tracking state is NOT reset to Idle
with both points cleared — `onTouchEnd` early-returns without clearing
`touchStart`, so the start point is still recorded. -/
theorem touchStart_not_cleared_on_bare_touchEnd :
    ¬ ((run defaultOptions [.touchStart 5 7, .touchEnd 3]).touchStart = none
       ∧ (run defaultOptions [.touchStart 5 7, .touchEnd 3]).touchEnd = none) := by
  decide

/-- C3 (amended): a touch-start at (x, y) followed directly by a touch-end
with no intervening move produces no classification and changes nothing
except the per-gesture points: the swipe result, both timers and every
other field are untouched, the end point is unset, and the start point is
retained (it is cleared only by a later completed gesture or overwritten by
the next touch-start). -/
theorem bare_touchEnd_keeps_start_point (opts : UseSwipeOptions)
    (s : DetectorState) (x y : Int) (t : Nat) :
    step opts (step opts s (.touchStart x y)) (.touchEnd t)
      = { s with touchStart := some ⟨x, y⟩, touchEnd := none } := by
  rfl

/-- C2: the code does not cancel the auto-reset timer on teardown.  After a
completed left-swipe gesture whose debounced update has fired (scheduling
the 100ms reset at t = 300) and a teardown, the debounce timer is cancelled
but `resetTimer` is still pending, and its callback still fires and mutates
the swipe result.  The claim (and spec section 5) requires both timers to
be cancelled so that no callback fires after teardown. -/
theorem reset_timer_survives_teardown :
    ((run defaultOptions [.touchStart 300 0, .touchMove 0 0, .touchEnd 0,
        .fireDebounce, .teardown]).tornDown = true
     ∧ (run defaultOptions [.touchStart 300 0, .touchMove 0 0, .touchEnd 0,
        .fireDebounce, .teardown]).debounceTimer = none
     ∧ (run defaultOptions [.touchStart 300 0, .touchMove 0 0, .touchEnd 0,
        .fireDebounce, .teardown]).resetTimer = some 300)
    ∧ (step defaultOptions
        (run defaultOptions [.touchStart 300 0, .touchMove 0 0, .touchEnd 0,
          .fireDebounce, .teardown]) .fireReset).swipeInfo
      ≠ (run defaultOptions [.touchStart 300 0, .touchMove 0 0, .touchEnd 0,
          .fireDebounce, .teardown]).swipeInfo := by
  decide

/-- C10: a touch-end arriving while the start point or the end point is
missing is a complete no-op — the state is unchanged, so the result is not
updated, no debounced update is scheduled, and a previously recorded start
point is retained; consequently a later touch-move followed by touch-end
classifies using the start point of the earlier touch. -/
theorem touchEnd_noop_retains_state (opts : UseSwipeOptions)
    (s : DetectorState) (t₀ : Nat)
    (h : s.touchStart = none ∨ s.touchEnd = none) :
    step opts s (.touchEnd t₀) = s
    ∧ (∀ (start : TouchCoordinates) (ex ey : Int) (t : Nat),
        s.touchStart = some start → s.touchEnd = none →
        (steps opts s [.touchEnd t₀, .touchMove ex ey, .touchEnd t]).debounceTimer
          = some (t + 200, start.x - ex, start.y - ey)) := by
  have hnoop : step opts s (.touchEnd t₀) = s := by
    rcases h with h | h <;>
      · cases hS : s.touchStart <;> cases hE : s.touchEnd <;>
          simp_all [step, onTouchEnd]
  refine ⟨hnoop, ?_⟩
  intro start ex ey t hst hen
  have h1 : steps opts s [.touchEnd t₀, .touchMove ex ey, .touchEnd t]
      = step opts (step opts s (.touchMove ex ey)) (.touchEnd t) := by
    simp [steps, List.foldl, hnoop]
  rw [h1]
  simp [step, onTouchMove, onTouchEnd, hst]

/-- C10 witness: a state holding a stale start point (300, 0) and no end
point; the bare touch-end leaves it unchanged, and a following move to the
origin plus touch-end schedules the debounced update with deltas taken from
the stale start point. -/
theorem touchEnd_noop_retains_state_witness :
    step defaultOptions
        { initState with touchStart := some ⟨300, 0⟩ } (.touchEnd 7)
      = { initState with touchStart := some ⟨300, 0⟩ }
    ∧ (steps defaultOptions { initState with touchStart := some ⟨300, 0⟩ }
        [.touchEnd 7, .touchMove 0 0, .touchEnd 9]).debounceTimer
      = some (209, 300, 0) :=
  ⟨(touchEnd_noop_retains_state defaultOptions
      { initState with touchStart := some ⟨300, 0⟩ } 7 (Or.inr rfl)).1,
   (touchEnd_noop_retains_state defaultOptions
      { initState with touchStart := some ⟨300, 0⟩ } 7 (Or.inr rfl)).2
      ⟨300, 0⟩ 0 0 9 rfl rfl⟩

/-- A quiescent detector: initial result, no pending timers. -/
def QuietInv (s : DetectorState) : Prop :=
  s.swipeInfo = initialSwipeInfo ∧ s.debounceTimer = none ∧ s.resetTimer = none

theorem quietInv_step (opts : UseSwipeOptions) (s : DetectorState) (e : Event)
    (h : QuietInv s) (he : e.isTouchEnd = false) : QuietInv (step opts s e) := by
  obtain ⟨h1, h2, h3⟩ := h
  cases e <;>
    simp_all [QuietInv, step, onTouchStart, onTouchMove, fireDebounce,
      fireReset, teardownDetector, Event.isTouchEnd]

theorem quietInv_steps (opts : UseSwipeOptions) (events : List Event) :
    ∀ s, QuietInv s → (∀ e ∈ events, e.isTouchEnd = false) →
      QuietInv (steps opts s events) := by
  induction events with
  | nil => exact fun s h _ => h
  | cons e es ih =>
      intro s h hall
      exact ih _ (quietInv_step opts s e h (hall e (by simp)))
        (fun e' he' => hall e' (by simp [he']))

/-- C7: a swipe classification is only computed when both points exist: any
trace containing no touch-end leaves the result initial with no debounced
update ever scheduled, and a touch-end arriving while either point is
missing changes neither the result nor the pending debounced update. -/
theorem classification_requires_both_points (opts : UseSwipeOptions)
    (events : List Event) (s : DetectorState) (t : Nat)
    (h : ∀ e ∈ events, e.isTouchEnd = false)
    (hs : s.touchStart = none ∨ s.touchEnd = none) :
    ((run opts events).swipeInfo = initialSwipeInfo
      ∧ (run opts events).debounceTimer = none)
    ∧ ((step opts s (.touchEnd t)).swipeInfo = s.swipeInfo
      ∧ (step opts s (.touchEnd t)).debounceTimer = s.debounceTimer) := by
  have hq := quietInv_steps opts events initState ⟨rfl, rfl, rfl⟩ h
  have hnoop : step opts s (.touchEnd t) = s := by
    rcases hs with hs | hs <;>
      · cases hS : s.touchStart <;> cases hE : s.touchEnd <;>
          simp_all [step, onTouchEnd]
  exact ⟨⟨hq.1, hq.2.1⟩, by rw [hnoop], by rw [hnoop]⟩

/-- C7 witness: a trace with a touch-start, a move and both timers poked
but no touch-end leaves the freshly mounted detector quiescent, and a bare
touch-end on the freshly mounted detector changes nothing. -/
theorem classification_requires_both_points_witness :
    (((run defaultOptions [.touchStart 9 9, .touchMove 0 0, .fireDebounce,
        .fireReset, .teardown]).swipeInfo = initialSwipeInfo
      ∧ (run defaultOptions [.touchStart 9 9, .touchMove 0 0, .fireDebounce,
        .fireReset, .teardown]).debounceTimer = none)
    ∧ ((step defaultOptions initState (.touchEnd 5)).swipeInfo
        = initState.swipeInfo
      ∧ (step defaultOptions initState (.touchEnd 5)).debounceTimer
        = initState.debounceTimer)) :=
  classification_requires_both_points defaultOptions
    [.touchStart 9 9, .touchMove 0 0, .fireDebounce, .fireReset, .teardown]
    initState 5 (by decide) (Or.inl rfl)

/-- C6: the classification is not applied on touch-end itself but scheduled
with a 200ms debounce delay; two completed gestures whose touch-ends both
fall inside one debounce window leave the result untouched and exactly one
pending update, armed 200ms after the last touch-end and carrying the last
gesture's deltas, and firing it applies the classification of those deltas
only. -/
theorem debounced_burst_collapses (opts : UseSwipeOptions)
    (sx₁ sy₁ ex₁ ey₁ sx₂ sy₂ ex₂ ey₂ : Int) (t₁ t₂ : Nat)
    (hwin : t₂ < t₁ + 200) :
    (run opts [.touchStart sx₁ sy₁, .touchMove ex₁ ey₁, .touchEnd t₁,
        .touchStart sx₂ sy₂, .touchMove ex₂ ey₂, .touchEnd t₂]).swipeInfo
      = initialSwipeInfo
    ∧ (run opts [.touchStart sx₁ sy₁, .touchMove ex₁ ey₁, .touchEnd t₁,
        .touchStart sx₂ sy₂, .touchMove ex₂ ey₂, .touchEnd t₂]).debounceTimer
      = some (t₂ + 200, sx₂ - ex₂, sy₂ - ey₂)
    ∧ (step opts (run opts [.touchStart sx₁ sy₁, .touchMove ex₁ ey₁,
        .touchEnd t₁, .touchStart sx₂ sy₂, .touchMove ex₂ ey₂,
        .touchEnd t₂]) .fireDebounce).swipeInfo
      = swipeInfoOf (minSwipeDistance opts) (sx₂ - ex₂) (sy₂ - ey₂) :=
  ⟨rfl, rfl, rfl⟩

/-- C6 witness: two left-swipe gestures ending at t = 0 and t = 150 (inside
the first 200ms window) leave one pending update at t = 350 carrying the
second gesture's deltas (250, 0), and firing it classifies a left swipe. -/
theorem debounced_burst_collapses_witness :
    (run defaultOptions [.touchStart 200 0, .touchMove 0 0, .touchEnd 0,
        .touchStart 250 0, .touchMove 0 0, .touchEnd 150]).swipeInfo
      = initialSwipeInfo
    ∧ (run defaultOptions [.touchStart 200 0, .touchMove 0 0, .touchEnd 0,
        .touchStart 250 0, .touchMove 0 0, .touchEnd 150]).debounceTimer
      = some (350, 250, 0)
    ∧ (step defaultOptions (run defaultOptions [.touchStart 200 0,
        .touchMove 0 0, .touchEnd 0, .touchStart 250 0, .touchMove 0 0,
        .touchEnd 150]) .fireDebounce).swipeInfo
      = swipeInfoOf (minSwipeDistance defaultOptions) 250 0 :=
  debounced_burst_collapses defaultOptions 200 0 0 0 250 0 0 0 0 150
    (by decide)

theorem onTouchEnd_preserves_resetTimer (s : DetectorState) (t : Nat) :
    (onTouchEnd s t).resetTimer = s.resetTimer := by
  cases hS : s.touchStart <;> cases hE : s.touchEnd <;> simp [onTouchEnd, hS, hE]

theorem onTouchEnd_preserves_swipeInfo (s : DetectorState) (t : Nat) :
    (onTouchEnd s t).swipeInfo = s.swipeInfo := by
  cases hS : s.touchStart <;> cases hE : s.touchEnd <;> simp [onTouchEnd, hS, hE]

theorem keep_resetTimer_never_set (opts : UseSwipeOptions)
    (hk : opts.keepUpdatedState = true) (events : List Event) :
    ∀ s, s.resetTimer = none → (steps opts s events).resetTimer = none := by
  induction events with
  | nil => exact fun s h => h
  | cons e es ih =>
      intro s h
      refine ih _ ?_
      cases e with
      | touchStart x y => simpa [step, onTouchStart] using h
      | touchMove x y => simpa [step, onTouchMove] using h
      | touchEnd t => rw [step, onTouchEnd_preserves_resetTimer]; exact h
      | fireDebounce =>
          cases hD : s.debounceTimer with
          | none => simpa [step, fireDebounce, hD] using h
          | some v =>
              obtain ⟨tf, dx, dy⟩ := v
              simpa [step, fireDebounce, hD, updateSwipeInfo, hk] using h
      | fireReset => simp [step, fireReset, h]
      | teardown => simpa [step, teardownDetector] using h

theorem step_preserves_swipeInfo (opts : UseSwipeOptions) (s : DetectorState)
    (e : Event) (hr : s.resetTimer = none) (he : e.isFireDebounce = false) :
    (step opts s e).swipeInfo = s.swipeInfo := by
  cases e with
  | touchStart x y => rfl
  | touchMove x y => rfl
  | touchEnd t => exact onTouchEnd_preserves_swipeInfo s t
  | fireDebounce => simp [Event.isFireDebounce] at he
  | fireReset => simp [step, fireReset, hr]
  | teardown => rfl

/-- C5: when `keepUpdatedState` is unset, the debounced update firing at
time `tf` sets the result and arms the auto-reset timer for `tf + 100`,
and that timer firing reverts the result to all-false flags; when
`keepUpdatedState` is set, no auto-reset timer is ever armed on any trace
from mount, so the last computed result persists — every event other than
the debounce timer firing leaves the result unchanged. -/
theorem auto_reset_policy (opts : UseSwipeOptions) (s s₂ : DetectorState)
    (tf : Nat) (dx dy : Int) (events : List Event) (e : Event)
    (hd : s.debounceTimer = some (tf, dx, dy))
    (hr : s₂.resetTimer = none)
    (he : e.isFireDebounce = false) :
    (opts.keepUpdatedState = false →
       (step opts s .fireDebounce).resetTimer = some (tf + 100)
       ∧ (step opts (step opts s .fireDebounce) .fireReset).swipeInfo
           = initialSwipeInfo)
    ∧ (opts.keepUpdatedState = true →
       (run opts events).resetTimer = none
       ∧ (step opts s₂ e).swipeInfo = s₂.swipeInfo) := by
  constructor
  · intro hk
    have h1 : (fireDebounce opts s).resetTimer = some (tf + 100) := by
      simp [fireDebounce, hd, updateSwipeInfo, hk]
    exact ⟨h1, by
      show (fireReset (fireDebounce opts s)).swipeInfo = initialSwipeInfo
      simp [fireReset, h1]⟩
  · intro hk
    exact ⟨keep_resetTimer_never_set opts hk events initState rfl,
      step_preserves_swipeInfo opts s₂ e hr he⟩

/-- C5 witness: with auto-reset enabled, a pending debounced left-swipe
update firing at t = 200 arms the reset for t = 300 and the reset reverts
the flags; with `keepUpdatedState`, a full gesture trace never arms the
reset timer and a teardown leaves the result untouched. -/
theorem auto_reset_policy_witness :
    ((step defaultOptions
        { initState with debounceTimer := some (200, 300, 0) }
        .fireDebounce).resetTimer = some 300
     ∧ (step defaultOptions (step defaultOptions
        { initState with debounceTimer := some (200, 300, 0) }
        .fireDebounce) .fireReset).swipeInfo = initialSwipeInfo)
    ∧ ((run keepOptions [.touchStart 300 0, .touchMove 0 0, .touchEnd 0,
        .fireDebounce]).resetTimer = none
     ∧ (step keepOptions initState .teardown).swipeInfo
        = initState.swipeInfo) :=
  ⟨(auto_reset_policy defaultOptions
      { initState with debounceTimer := some (200, 300, 0) } initState
      200 300 0 [] .teardown rfl rfl rfl).1 rfl,
   (auto_reset_policy keepOptions
      { initState with debounceTimer := some (200, 300, 0) } initState
      200 300 0 [.touchStart 300 0, .touchMove 0 0, .touchEnd 0,
        .fireDebounce] .teardown rfl rfl rfl).2 rfl⟩

/-- C8: exactly one binding mode is active: with `useDocument` the three
touch listeners go on the document whatever the refs hold; without it they
go on the external ref's element when present, otherwise on the owned
ref's element. -/
theorem binding_mode_precedence :
    (∀ (oR own : Option Nat),
        bindListeners ⟨true, oR, own⟩ = listenersOn .document)
    ∧ (∀ (e : Nat) (own : Option Nat),
        bindListeners ⟨false, some e, own⟩ = listenersOn (.element e))
    ∧ (∀ e : Nat,
        bindListeners ⟨false, none, some e⟩ = listenersOn (.element e)) :=
  ⟨fun _ _ => rfl, fun _ _ => rfl, fun _ => rfl⟩

/-- C9: when no binding target is available (not using the document and
both refs empty), the effect attaches nothing — it is a total function
returning the empty attachment list, with no error value — and the same
effect evaluated at inputs where a target has become available attaches
the three listeners (the host framework re-runs the effect when its
dependencies change). -/
theorem absent_target_silent_noop :
    bindListeners ⟨false, none, none⟩ = []
    ∧ (∀ e : Nat,
        bindListeners ⟨false, none, some e⟩ = listenersOn (.element e))
    ∧ (∀ e : Nat,
        bindListeners ⟨false, some e, none⟩ = listenersOn (.element e)) :=
  ⟨rfl, fun _ => rfl, fun _ => rfl⟩
